import Mathlib

/-!
Verification development for pty-wrap (src/pty_wrap.py): a shallow embedding
of the session store, the client commands (start, read, send, status, stop)
and the daemon's bridge loop (run_wrapper / drain_pty), with theorems
settling the specification's claims about them.

Conventions of the embedding:
* Per-session filesystem state is a `SessionFs` record: whether the session
  directory exists, and the contents (or absence) of the pid file, the
  output log, the input FIFO and the cmd file.
* Process liveness (the `os.kill(pid, 0)` probe) is an oracle
  `alive : Int → Bool` passed to each command.
* Byte strings read from descriptors are modelled as already-decoded Lean
  strings; `decode("utf-8", errors="replace")` maps empty byte strings to
  empty strings and nonempty ones to nonempty ones, so the `if data:`
  checks in the Python are modelled by emptiness of the decoded string.
-/

namespace PtyWrap

/-- Whitespace characters removed by Python's `str.strip()` (ASCII subset;
pid files are written by `str(os.getpid())` and contain none of these). -/
def isSpaceChar (c : Char) : Bool :=
  c == ' ' || c == '\t' || c == '\n' || c == '\r' || c == '\x0b' || c == '\x0c'

/-- Drop leading whitespace from a character list. -/
def dropSpaces : List Char → List Char
  | [] => []
  | c :: cs => if isSpaceChar c then dropSpaces cs else c :: cs

/-- Python `str.strip()`: remove leading and trailing whitespace. -/
def stripChars (l : List Char) : List Char :=
  ((dropSpaces (dropSpaces l).reverse)).reverse

/-- Accumulate a decimal value over a digit list. -/
def digitsToNatAux : List Char → Nat → Nat
  | [], n => n
  | c :: cs, n => digitsToNatAux cs (n * 10 + (c.toNat - 48))

/-- Every character is a decimal digit. -/
def allDigits : List Char → Bool
  | [] => true
  | c :: cs => c.isDigit && allDigits cs

/-- Python `int()` applied to an already-stripped character list: an optional
sign followed by one or more decimal digits; anything else raises ValueError,
modelled as `none`.  (Underscore-grouped literals accepted by Python are not
modelled; pid files are plain decimal.) -/
def pyIntChars : List Char → Option Int
  | [] => none
  | '-' :: rest =>
      if rest ≠ [] ∧ allDigits rest then some (-(digitsToNatAux rest 0 : Int)) else none
  | '+' :: rest =>
      if rest ≠ [] ∧ allDigits rest then some ((digitsToNatAux rest 0 : Int)) else none
  | l =>
      if allDigits l then some ((digitsToNatAux l 0 : Int)) else none

/-- Models `int(f.read().strip())` as used at pty_wrap.py lines 172, 218,
235 and 262: strip whitespace then parse as a Python integer literal;
`none` is the ValueError branch. -/
def pyInt (s : String) : Option Int :=
  pyIntChars (stripChars s.data)

/-- Per-session filesystem state: the session directory and the four files
inside it (cf. cmd_start, pty_wrap.py lines 113-126).  `none` means the
file is absent; for the pid file, cmd file and output log, `some c` holds
the file's textual contents. -/
structure SessionFs where
  dirExists : Bool
  pidFile : Option String
  outputFile : Option String
  fifoExists : Bool
  cmdFile : Option String
deriving DecidableEq, Repr

/-- The state with no session: directory absent, no files. -/
def emptyFs : SessionFs :=
  { dirExists := false, pidFile := none, outputFile := none,
    fifoExists := false, cmdFile := none }

/-- cmd_status (pty_wrap.py lines 208-222): `not_found` if the session
directory is absent; otherwise open and parse the pid file and probe the
process with signal 0, printing `running` on success; FileNotFoundError,
ValueError and ProcessLookupError all print `exited`. -/
def cmd_status (alive : Int → Bool) (fs : SessionFs) : String :=
  if fs.dirExists = false then "not_found"
  else
    match fs.pidFile with
    | none => "exited"
    | some c =>
      match pyInt c with
      | none => "exited"
      | some pid => if alive pid then "running" else "exited"

/-- Result of cmd_read: `sys.exit` with the not-found message, or the log
contents printed verbatim. -/
inductive ReadResult where
  | notFound
  | contents (s : String)
deriving DecidableEq, Repr

/-- cmd_read (pty_wrap.py lines 150-158): if the output file is absent,
exit with a not-found error; otherwise print its entire contents from the
beginning. -/
def cmd_read (fs : SessionFs) : ReadResult :=
  match fs.outputFile with
  | none => .notFound
  | some s => .contents s

/-- Result of cmd_stop: either the success message `stopped` or the
not-found error exit. -/
inductive StopResult where
  | stopped
  | errNotFound
deriving DecidableEq, Repr

/-- cmd_stop (pty_wrap.py lines 225-247): exit with a not-found error if the
session directory is absent; otherwise attempt to signal the recorded pid
(all FileNotFoundError / ValueError / ProcessLookupError outcomes
suppressed), remove the whole session directory with
`shutil.rmtree(..., ignore_errors=True)` and print `stopped`.  The returned
state is the session's filesystem state afterwards. -/
def cmd_stop (fs : SessionFs) : StopResult × SessionFs :=
  if fs.dirExists = false then (.errNotFound, fs)
  else (.stopped, emptyFs)

/-- Result of cmd_send: the not-found exit, the not-running exit, the `ok`
success print, the helper-failed exit, or the timeout exit. -/
inductive SendResult where
  | notFound
  | notRunning
  | ok
  | sendFailed
  | timeout
deriving DecidableEq, Repr

/-- Process exit status of cmd_send: `print("ok"); return` exits 0, every
`sys.exit("Error: ...")` branch exits 1. -/
def sendExitCode : SendResult → Nat
  | .ok => 0
  | _ => 1

/-- The parent's wait loop in cmd_send (pty_wrap.py lines 192-205), polling
`os.waitpid(child, WNOHANG)` at 0.1 s intervals.  `helper i` is the
waitpid observation at poll `i`: `none` when the FIFO-writing child has not
yet finished, `some st` when it has finished with status `st`.  The fuel is
the remaining number of polls; the second component counts polls performed. -/
def sendWaitAux (helper : Nat → Option Nat) : Nat → Nat → SendResult × Nat
  | _, 0 => (.timeout, 0)
  | i, n + 1 =>
      match helper i with
      | some 0 => (.ok, 1)
      | some (_ + 1) => (.sendFailed, 1)
      | none =>
          let r := sendWaitAux helper (i + 1) n
          (r.1, r.2 + 1)

/-- cmd_send's wait loop run with its 50-poll (5 second) budget. -/
def sendWait (helper : Nat → Option Nat) : SendResult :=
  (sendWaitAux helper 0 50).1

/-- Number of waitpid polls cmd_send's wait loop performs. -/
def sendWaitPolls (helper : Nat → Option Nat) : Nat :=
  (sendWaitAux helper 0 50).2

/-- cmd_send (pty_wrap.py lines 161-205): exit not-found if the session
directory is absent; open and parse the pid file and probe the recorded
process with signal 0, exiting not-running on FileNotFoundError,
ValueError or ProcessLookupError; only then fork the FIFO-writing helper
child and run the bounded wait loop.  The second component records whether
the helper child (the only writer to the input channel) was forked at all. -/
def cmd_send (alive : Int → Bool) (fs : SessionFs) (helper : Nat → Option Nat) :
    SendResult × Bool :=
  if fs.dirExists = false then (.notFound, false)
  else
    match fs.pidFile with
    | none => (.notRunning, false)
    | some c =>
      match pyInt c with
      | none => (.notRunning, false)
      | some pid =>
        if alive pid then (sendWait helper, true) else (.notRunning, false)

/-- Session state after cmd_start has created the directory, written the cmd
file and created the FIFO (pty_wrap.py lines 113-126), before the daemon
records its pid: the pid file and output log do not exist yet. -/
def startFsPrePid (program : List String) : SessionFs :=
  { dirExists := true, pidFile := none, outputFile := none,
    fifoExists := true, cmdFile := some (String.intercalate " " program) }

/-- Session state after the daemon process has written its own pid
(pty_wrap.py lines 143-144), before run_wrapper opens the output log. -/
def startFsPostPid (program : List String) (pid : Nat) : SessionFs :=
  { startFsPrePid program with pidFile := some (toString pid) }

/-- Session state once run_wrapper has opened the output log in append mode
(pty_wrap.py line 300) and the child has not yet produced any bytes: the
log exists and is empty.  cmd_start's parent sleeps 0.2 s (line 132) before
returning, intended to cover the daemon reaching this point. -/
def startFsDaemonReady (program : List String) (pid : Nat) : SessionFs :=
  { startFsPostPid program pid with outputFile := some "" }

/-- The succession of per-session filesystem states during a start: nothing
yet; directory, cmd file and FIFO created by the client; pid recorded by
the daemon; output log opened by run_wrapper.  A concurrent status or read
may observe the session between any two consecutive phases. -/
def startPhases (program : List String) (pid : Nat) : List SessionFs :=
  [emptyFs, startFsPrePid program, startFsPostPid program pid,
   startFsDaemonReady program pid]

/-- The leading `--` separator handling in cmd_start (pty_wrap.py lines
104-106): drop the first argument when it is exactly `--`. -/
def stripDashes : List String → List String
  | "--" :: rest => rest
  | program => program

/-- cmd_start's synchronous client part (pty_wrap.py lines 103-126): strip a
leading `--`; if the remaining argument list is empty, exit with
`Error: No command specified` having created nothing; otherwise create the
session directory, cmd file and FIFO, yielding the stripped program to be
executed and the session state visible before the daemon records its pid. -/
def cmd_start (args : List String) : Except String (List String × SessionFs) :=
  match stripDashes args with
  | [] => .error "Error: No command specified"
  | p => .ok (p, startFsPrePid p)

/-- The program image exec'd for a started session:
`os.execvp(command[0], command)` at pty_wrap.py line 294. -/
def execTarget (command : List String) : Option String :=
  command.head?

/-- Outcome of one `os.read` on a descriptor: the bytes delivered (already
decoded; `""` is a zero-length read) or an OSError. -/
inductive MRead where
  | bytes (s : String)
  | rerr
deriving DecidableEq, Repr

/-- What `select` reports ready in one bridge-loop iteration
(pty_wrap.py line 305): the PTY master, the input FIFO, both (the loop
handles the master first), or neither within the 0.1 s interval. -/
inductive Ev where
  | master (r : MRead)
  | fifo (r : MRead)
  | both (m : MRead) (f : MRead)
  | timeout
deriving DecidableEq, Repr

/-- One iteration of the bridge loop's environment: the select outcome, the
waitpid-WNOHANG observation at the end of the iteration (true when the
child has exited), and the master reads drain_pty would obtain after that
(each list element is one ready-and-read outcome; the list ending models
the drain's select timing out). -/
structure Iter where
  sel : Ev
  childExit : Bool
  drain : List MRead
deriving DecidableEq, Repr

/-- Observable action of the daemon, in order: append (and flush) a string
to the output log, write bytes to the PTY master, close the log, close the
FIFO read descriptor, close the master descriptor. -/
inductive Act where
  | log (s : String)
  | toMaster (s : String)
  | closeLog
  | closeIn
  | closeMaster
deriving DecidableEq, Repr

/-- Handling of a ready PTY master (pty_wrap.py lines 308-317): nonempty
data is decoded and appended to the log; a zero-length read raises
EOFError, and OSError is treated identically.  The flag reports whether
EOFError was raised. -/
def readActMaster : MRead → List Act × Bool
  | .bytes s => if s.isEmpty then ([], true) else ([.log s], false)
  | .rerr => ([], true)

/-- Handling of a ready input FIFO (pty_wrap.py lines 319-325): nonempty
data is forwarded verbatim to the master; a zero-length read does nothing
and an OSError is silently swallowed. -/
def readActFifo : MRead → List Act
  | .bytes s => if s.isEmpty then [] else [.toMaster s]
  | .rerr => []

/-- Actions of one pass over the ready descriptors (the `for fd in ready`
body), master before FIFO; when the master raises EOFError the FIFO is not
handled, since the exception aborts the `for` loop. -/
def iterActs : Ev → List Act × Bool
  | .timeout => ([], false)
  | .master r => readActMaster r
  | .fifo r => (readActFifo r, false)
  | .both m f =>
      match readActMaster m with
      | (a, true) => (a, true)
      | (a, false) => (a ++ readActFifo f, false)

/-- drain_pty (pty_wrap.py lines 343-357): keep reading the master while
select reports it ready; nonempty data is appended to the log; a
zero-length read, an OSError, or select timing out (the list ending) stops
the drain. -/
def drainActs : List MRead → List Act
  | [] => []
  | .bytes s :: rest => if s.isEmpty then [] else .log s :: drainActs rest
  | .rerr :: _ => []

/-- The bridge loop body (pty_wrap.py lines 304-331) run against a finite
iteration trace: each iteration handles the ready descriptors, then polls
the child with waitpid-WNOHANG, draining and breaking when it has exited;
a master EOF or read error exits the loop via EOFError.  Returns the
actions performed up to loop exit, or `none` when the trace is exhausted
with the loop still running. -/
def loopActs : List Iter → Option (List Act)
  | [] => none
  | it :: rest =>
      match iterActs it.sel with
      | (a, true) => some a
      | (a, false) =>
          if it.childExit then some (a ++ drainActs it.drain)
          else (loopActs rest).map (fun as => a ++ as)

/-- The fixed exit marker appended to the log on loop exit
(pty_wrap.py line 337). -/
def exitMarker : String := "\n[pty-wrap: process exited]\n"

/-- The `finally` block of run_wrapper (pty_wrap.py lines 336-340): append
the exit marker to the log, then close the log, the FIFO read descriptor
and the master descriptor, in that order. -/
def finalizeActs : List Act :=
  [.log exitMarker, .closeLog, .closeIn, .closeMaster]

/-- run_wrapper's bridging phase (pty_wrap.py lines 296-341): the loop's
actions followed — on every exit path, normal drain or EOFError, since the
closes sit in a `finally` block — by the finalize sequence. -/
def run_wrapper (t : List Iter) : Option (List Act) :=
  (loopActs t).map (fun as => as ++ finalizeActs)

/-- Contents of the output log after a list of daemon actions: the
concatenation, in order, of every appended string (the log is opened in
append mode and only ever appended to). -/
def logContents : List Act → String
  | [] => ""
  | .log s :: rest => s ++ logContents rest
  | _ :: rest => logContents rest

/-- Rank of a status value along the ordering not_found → running → exited. -/
def statusRank : String → Nat
  | "not_found" => 0
  | "running" => 1
  | _ => 2

/-- A sequence of status observations is monotone along
not_found → running → exited: the rank never decreases. -/
def statusesMonotone (l : List String) : Prop :=
  ∀ i j : Fin l.length, (i : Nat) ≤ (j : Nat) →
    statusRank (l.get i) ≤ statusRank (l.get j)

instance (l : List String) : Decidable (statusesMonotone l) := by
  unfold statusesMonotone
  infer_instance

/-- Liveness oracle under which exactly process 7 is alive. -/
def aliveSeven : Int → Bool := fun p => p == 7

/-- Helper-schedule under which the FIFO-writing child never finishes. -/
def helperNone : Nat → Option Nat := fun _ => none

/-- A fully populated session whose recorded pid 123 may or may not be alive. -/
def fsDemo : SessionFs :=
  { dirExists := true, pidFile := some "123", outputFile := some "hi",
    fifoExists := true, cmdFile := some "sh" }

/-- A session whose recorded pid is 9 (dead under `aliveSeven`). -/
def fs9 : SessionFs :=
  { dirExists := true, pidFile := some "9", outputFile := some "",
    fifoExists := true, cmdFile := some "sh" }

/-- A session whose recorded pid is 7 (alive under `aliveSeven`). -/
def fsSeven : SessionFs :=
  { dirExists := true, pidFile := some "7", outputFile := some "",
    fifoExists := true, cmdFile := some "sh" }

/-- A session whose pid file holds unparsable text. -/
def fsBadPid : SessionFs :=
  { dirExists := true, pidFile := some "garbage", outputFile := some "",
    fifoExists := true, cmdFile := some "sh" }

/-- Claim C1 fails on the code: the first stop on an existing session prints
`stopped` and removes the directory, but the second stop in succession finds
the directory absent and exits with the not-found error instead of printing
`stopped`, so stop is not idempotent. -/
theorem c1_stop_not_idempotent :
    (cmd_stop fsDemo).1 = .stopped ∧
    (cmd_stop (cmd_stop fsDemo).2).1 = .errNotFound ∧
    StopResult.errNotFound ≠ .stopped := by
  decide

/-- Claim C1 amended: stop on an existing session prints `stopped` and
removes the whole session directory; a second stop in succession, finding
the directory already removed, fails with a not-found error rather than
reporting success. -/
theorem c1_stop_second_call_errors (fs : SessionFs) (h : fs.dirExists = true) :
    (cmd_stop fs).1 = .stopped ∧ (cmd_stop fs).2 = emptyFs ∧
    (cmd_stop (cmd_stop fs).2).1 = .errNotFound := by
  simp [cmd_stop, h, emptyFs]

/-- Witness for c1_stop_second_call_errors at a concrete session. -/
theorem c1_witness :
    (cmd_stop fsDemo).1 = .stopped ∧ (cmd_stop fsDemo).2 = emptyFs ∧
    (cmd_stop (cmd_stop fsDemo).2).1 = .errNotFound :=
  c1_stop_second_call_errors fsDemo rfl

/-- Claim C2 fails on the code: observing the session at the successive
phases of a start (directory created, then pid recorded by the daemon),
status prints `not_found`, then `exited` — the pid file does not exist yet
in the window the claim explicitly includes — and then `running`, a rank
regression, so the status sequence is not monotone along
not_found → running → exited. -/
theorem c2_status_regresses :
    (startPhases ["sh"] 7).map (cmd_status aliveSeven)
      = ["not_found", "exited", "running", "running"] ∧
    ¬ statusesMonotone ((startPhases ["sh"] 7).map (cmd_status aliveSeven)) := by
  constructor
  · decide
  · decide

/-- Claim C2 amended: once the daemon has recorded its pid, status never
changes from `exited` back to `running`: for two observation points where
the later state has the same pid-file content whenever its directory still
exists, and where no process dead at the first point is alive at the
second, a first observation of `exited` precludes a later observation of
`running`. -/
theorem c2_no_regress_after_pid_recorded
    (alive1 alive2 : Int → Bool) (fs1 fs2 : SessionFs)
    (hrev : ∀ p, alive2 p = true → alive1 p = true)
    (hfs : fs2.dirExists = true → fs1.dirExists = true ∧ fs2.pidFile = fs1.pidFile)
    (h1 : cmd_status alive1 fs1 = "exited") :
    cmd_status alive2 fs2 ≠ "running" := by
  intro h2
  cases hd : fs2.dirExists with
  | false => simp [cmd_status, hd] at h2
  | true =>
      obtain ⟨h1d, hpf⟩ := hfs hd
      cases hp : fs2.pidFile with
      | none => simp [cmd_status, hd, hp] at h2
      | some c =>
          cases hq : pyInt c with
          | none => simp [cmd_status, hd, hp, hq] at h2
          | some pid =>
              cases ha : alive2 pid with
              | false => simp [cmd_status, hd, hp, hq, ha] at h2
              | true =>
                  have ha1 : alive1 pid = true := hrev pid ha
                  have hr : cmd_status alive1 fs1 = "running" := by
                    simp [cmd_status, h1d, hpf ▸ hp, hq, ha1]
                  rw [h1] at hr
                  simp at hr

/-- Witness for c2_no_regress_after_pid_recorded at a concrete dead session. -/
theorem c2_witness : cmd_status aliveSeven fs9 ≠ "running" :=
  c2_no_regress_after_pid_recorded aliveSeven aliveSeven fs9 fs9
    (fun _ h => h) (fun hd => ⟨hd, rfl⟩) (by decide)

/-- Claim C3: when the recorded owner process fails the signal-zero liveness
probe, cmd_send exits with the not-running error before forking the
FIFO-writing helper (so no write to the input channel is attempted), with a
non-zero exit status, and in particular never with the timeout error. -/
theorem c3_send_dead_not_running (alive : Int → Bool) (fs : SessionFs)
    (helper : Nat → Option Nat) (c : String) (pid : Int)
    (hdir : fs.dirExists = true) (hpf : fs.pidFile = some c)
    (hparse : pyInt c = some pid) (hdead : alive pid = false) :
    cmd_send alive fs helper = (.notRunning, false) ∧
    SendResult.notRunning ≠ .timeout ∧ sendExitCode .notRunning ≠ 0 := by
  refine ⟨?_, by decide, by decide⟩
  simp [cmd_send, hdir, hpf, hparse, hdead]

/-- Witness for c3_send_dead_not_running: a session recording dead pid 9. -/
theorem c3_witness :
    cmd_send aliveSeven fs9 helperNone = (.notRunning, false) ∧
    SendResult.notRunning ≠ .timeout ∧ sendExitCode .notRunning ≠ 0 :=
  c3_send_dead_not_running aliveSeven fs9 helperNone "9" 9 rfl rfl
    (by decide) (by decide)

/-- Claim C4: immediately after a start, once the daemon has opened the
output log (the setup the parent's 0.2 s delay is meant to cover) and
before the child produces any bytes, the log exists and is empty, and
cmd_read succeeds returning the empty string rather than reporting
not-found. -/
theorem c4_read_fresh_session_empty (program : List String) (pid : Nat) :
    (startFsDaemonReady program pid).outputFile = some "" ∧
    cmd_read (startFsDaemonReady program pid) = .contents "" ∧
    cmd_read (startFsDaemonReady program pid) ≠ .notFound := by
  refine ⟨rfl, rfl, ?_⟩
  intro h
  exact ReadResult.noConfusion h

/-- The wait loop performs at most as many polls as its fuel. -/
theorem sendWaitAux_polls_le (helper : Nat → Option Nat) :
    ∀ (n i : Nat), (sendWaitAux helper i n).2 ≤ n := by
  intro n
  induction n with
  | zero => intro i; exact Nat.le_refl 0
  | succ m ih =>
      intro i
      cases h : helper i with
      | none =>
          have hm := ih (i + 1)
          simp only [sendWaitAux, h]
          omega
      | some st =>
          cases st with
          | zero => simp [sendWaitAux, h]
          | succ k => simp [sendWaitAux, h]

/-- When the helper finishes at no poll within the fuel, the wait loop
times out after consuming all its fuel. -/
theorem sendWaitAux_timeout (helper : Nat → Option Nat) :
    ∀ (n i : Nat), (∀ j, j < n → helper (i + j) = none) →
      sendWaitAux helper i n = (.timeout, n) := by
  intro n
  induction n with
  | zero => intro i _; rfl
  | succ m ih =>
      intro i hall
      have h0 : helper i = none := by simpa using hall 0 (Nat.succ_pos m)
      have hrec : sendWaitAux helper (i + 1) m = (.timeout, m) := by
        apply ih
        intro j hj
        have h2 := hall (j + 1) (Nat.succ_lt_succ hj)
        have he : (i + 1) + j = i + (j + 1) := by omega
        rw [he]
        exact h2
      simp [sendWaitAux, h0, hrec]

/-- When the helper first finishes, with status zero, strictly within the
fuel, the wait loop reports success. -/
theorem sendWaitAux_ok (helper : Nat → Option Nat) :
    ∀ (k n i : Nat), k < n → (∀ j, j < k → helper (i + j) = none) →
      helper (i + k) = some 0 →
      (sendWaitAux helper i n).1 = SendResult.ok := by
  intro k
  induction k with
  | zero =>
      intro n i hn _ h0
      cases n with
      | zero => omega
      | succ m =>
          have hi : helper i = some 0 := by simpa using h0
          simp [sendWaitAux, hi]
  | succ kk ih =>
      intro n i hn hall hk
      cases n with
      | zero => omega
      | succ m =>
          have h0 : helper i = none := by simpa using hall 0 (Nat.succ_pos kk)
          have hshift : ∀ j, j < kk → helper ((i + 1) + j) = none := by
            intro j hj
            have h2 := hall (j + 1) (Nat.succ_lt_succ hj)
            have he : (i + 1) + j = i + (j + 1) := by omega
            rw [he]
            exact h2
          have hk2 : helper ((i + 1) + kk) = some 0 := by
            have he : (i + 1) + kk = i + (kk + 1) := by omega
            rw [he]
            exact hk
          have hrec := ih m (i + 1) (by omega) hshift hk2
          simpa [sendWaitAux, h0] using hrec

/-- Claim C5: for a session passing the liveness probe, cmd_send's wait
loop performs at most 50 polls (0.1 s apart, the 5 second budget); if the
FIFO-writing helper has not finished within those 50 polls the command
fails with the timeout error (after killing the helper), and if the helper
first finishes within the budget with status zero the command prints
`ok`. -/
theorem c5_send_bounded (alive : Int → Bool) (fs : SessionFs)
    (helper : Nat → Option Nat) (c : String) (pid : Int)
    (hdir : fs.dirExists = true) (hpf : fs.pidFile = some c)
    (hparse : pyInt c = some pid) (hlive : alive pid = true) :
    sendWaitPolls helper ≤ 50 ∧
    ((∀ i, i < 50 → helper i = none) →
      cmd_send alive fs helper = (.timeout, true)) ∧
    (∀ k, k < 50 → (∀ i, i < k → helper i = none) → helper k = some 0 →
      cmd_send alive fs helper = (.ok, true)) := by
  refine ⟨sendWaitAux_polls_le helper 50 0, ?_, ?_⟩
  · intro hall
    have ht := sendWaitAux_timeout helper 50 0
      (by intro j hj; simpa using hall j hj)
    simp [cmd_send, hdir, hpf, hparse, hlive, sendWait, ht]
  · intro k hk hall hsome
    have ho := sendWaitAux_ok helper k 50 0 hk
      (by intro j hj; simpa using hall j hj) (by simpa using hsome)
    simp [cmd_send, hdir, hpf, hparse, hlive, sendWait, ho]

/-- Witness for c5_send_bounded: a live session whose helper never
finishes, yielding the timeout error. -/
theorem c5_witness :
    cmd_send aliveSeven fsSeven helperNone = (.timeout, true) :=
  (c5_send_bounded aliveSeven fsSeven helperNone "7" 7 rfl rfl
    (by decide) (by decide)).2.1 (fun _ _ => rfl)

/-- Claim C6: whenever the bridge loop run against a trace exits — via the
normal drain after child exit, or via EOFError from a zero-length read or
read error on the master — the actions performed end with the finalize
sequence: append the fixed exit marker to the log, then close the log, the
input-channel descriptor and the master descriptor, in that order. -/
theorem c6_finalize_on_exit (t : List Iter) (acts : List Act)
    (h : run_wrapper t = some acts) :
    ∃ loopPart, loopActs t = some loopPart ∧
      acts = loopPart ++
        [Act.log exitMarker, Act.closeLog, Act.closeIn, Act.closeMaster] := by
  unfold run_wrapper at h
  cases hl : loopActs t with
  | none =>
      rw [hl] at h
      exact Option.noConfusion h
  | some as =>
      rw [hl] at h
      refine ⟨as, rfl, ?_⟩
      have h2 : some (as ++ finalizeActs) = some acts := h
      have h3 := Option.some.inj h2
      rw [← h3]
      rfl

/-- An iteration trace that exits through the error path: the very first
master read raises OSError. -/
def traceErr : List Iter := [⟨Ev.master .rerr, false, []⟩]

/-- Witness for c6_finalize_on_exit on the error-path trace. -/
theorem c6_witness :
    ∃ loopPart, loopActs traceErr = some loopPart ∧
      [Act.log exitMarker, Act.closeLog, Act.closeIn, Act.closeMaster]
        = loopPart ++
          [Act.log exitMarker, Act.closeLog, Act.closeIn, Act.closeMaster] :=
  c6_finalize_on_exit traceErr
    [Act.log exitMarker, Act.closeLog, Act.closeIn, Act.closeMaster] rfl

/-- Log contents distribute over concatenation of action lists. -/
theorem logContents_append (l l' : List Act) :
    logContents (l ++ l') = logContents l ++ logContents l' := by
  induction l with
  | nil => simp [logContents]
  | cons a rest ih =>
      cases a <;> simp [logContents, ih, String.append_assoc]

/-- Claim C7: along any completed bridge-loop run, the log only grows — at
any two observation points (the first k and the first k' actions, k ≤ k'),
cmd_read returns the flushed log contents verbatim, and the earlier
contents are a prefix of the later contents. -/
theorem c7_log_only_grows (t : List Iter) (acts : List Act)
    (h : run_wrapper t = some acts) (k k' : Nat) (hkk : k ≤ k') :
    cmd_read { dirExists := true, pidFile := none,
               outputFile := some (logContents (acts.take k)),
               fifoExists := true, cmdFile := none }
      = .contents (logContents (acts.take k)) ∧
    ∃ rest, logContents (acts.take k) ++ rest = logContents (acts.take k') := by
  refine ⟨rfl, ⟨logContents ((acts.take k').drop k), ?_⟩⟩
  have h1 : (acts.take k').take k = acts.take k := by
    rw [List.take_take, min_eq_left hkk]
  calc logContents (acts.take k) ++ logContents ((acts.take k').drop k)
      = logContents ((acts.take k').take k)
          ++ logContents ((acts.take k').drop k) := by rw [h1]
    _ = logContents ((acts.take k').take k ++ (acts.take k').drop k) :=
        (logContents_append _ _).symm
    _ = logContents (acts.take k') := by rw [List.take_append_drop]

/-- A trace producing output before and after child exit: one chunk from
the master, then a chunk plus forwarded input in the iteration where the
child is seen to have exited, then one chunk in the drain. -/
def traceDemo : List Iter :=
  [⟨Ev.master (.bytes "a"), false, []⟩,
   ⟨Ev.both (.bytes "b") (.bytes "x"), true, [.bytes "c"]⟩]

/-- The actions of run_wrapper on traceDemo. -/
def actsDemo : List Act :=
  [Act.log "a", Act.log "b", Act.toMaster "x", Act.log "c",
   Act.log exitMarker, Act.closeLog, Act.closeIn, Act.closeMaster]

/-- Witness for c7_log_only_grows on traceDemo at observation points 1
and 4. -/
theorem c7_witness :
    cmd_read { dirExists := true, pidFile := none,
               outputFile := some (logContents (actsDemo.take 1)),
               fifoExists := true, cmdFile := none }
      = .contents (logContents (actsDemo.take 1)) ∧
    ∃ rest, logContents (actsDemo.take 1) ++ rest
      = logContents (actsDemo.take 4) :=
  c7_log_only_grows traceDemo actsDemo rfl 1 4 (by decide)

/-- Claim C8: a start invocation whose argument list is empty once a
leading `--` separator has been stripped exits with the descriptive error
and creates no session state: no directory, command record, FIFO or pid
file comes into existence. -/
theorem c8_empty_command_rejected (args : List String)
    (h : stripDashes args = []) :
    cmd_start args = .error "Error: No command specified" ∧
    ∀ p fs, cmd_start args ≠ .ok (p, fs) := by
  constructor
  · simp [cmd_start, h]
  · intro p fs hc
    rw [cmd_start, h] at hc
    exact Except.noConfusion hc

/-- Witness for c8_empty_command_rejected on the argument list containing
only the separator. -/
theorem c8_witness :
    cmd_start ["--"] = .error "Error: No command specified" ∧
    ∀ p fs, cmd_start ["--"] ≠ .ok (p, fs) :=
  c8_empty_command_rejected ["--"] rfl

/-- Claim C9: when the pid file exists but its contents do not parse as an
integer, the session is treated exactly as if its process were gone:
cmd_status prints `exited`, cmd_send exits not-running without forking the
FIFO writer, and cmd_stop still removes the directory and prints
`stopped`. -/
theorem c9_unparsable_pid (alive : Int → Bool) (fs : SessionFs)
    (helper : Nat → Option Nat) (c : String)
    (hdir : fs.dirExists = true) (hpf : fs.pidFile = some c)
    (hbad : pyInt c = none) :
    cmd_status alive fs = "exited" ∧
    cmd_send alive fs helper = (.notRunning, false) ∧
    (cmd_stop fs).1 = .stopped ∧ (cmd_stop fs).2.dirExists = false := by
  refine ⟨?_, ?_, ?_, ?_⟩ <;>
    simp [cmd_status, cmd_send, cmd_stop, emptyFs, hdir, hpf, hbad]

/-- Witness for c9_unparsable_pid: a pid file holding the text
`garbage`. -/
theorem c9_witness :
    cmd_status aliveSeven fsBadPid = "exited" ∧
    cmd_send aliveSeven fsBadPid helperNone = (.notRunning, false) ∧
    (cmd_stop fsBadPid).1 = .stopped ∧
    (cmd_stop fsBadPid).2.dirExists = false :=
  c9_unparsable_pid aliveSeven fsBadPid helperNone "garbage" rfl rfl
    (by decide)

/-- Claim C10: cmd_start strips at most one leading `--`: the list
consisting of exactly one `--` is rejected as an empty command, while a
list beginning with two `--` separators keeps the second one, so the
session is created for the program literally named `--`, which is what
run_wrapper's child execs. -/
theorem c10_strip_one_separator :
    cmd_start ["--"] = .error "Error: No command specified" ∧
    cmd_start ["--", "--"] = .ok (["--"], startFsPrePid ["--"]) ∧
    execTarget ["--"] = some "--" ∧
    ∀ rest : List String, stripDashes ("--" :: "--" :: rest) = "--" :: rest := by
  refine ⟨rfl, rfl, rfl, fun rest => rfl⟩

end PtyWrap
